import Mathlib

/-
  Verification of the tinify-rs client library against its specification.

  The development shallowly embeds the code of `src/src/source.rs` (the
  blocking `Source` state machine; `src/src/sync/source.rs` and
  `src/src/async_bin/source.rs` are line-for-line semantically identical
  up to the suspension points) together with the operation descriptors of
  `src/src/resize.rs` and `src/src/convert.rs`.

  Modelling conventions:
  - HTTP is an oracle `Net : HttpRequest -> HttpResponse`; every operation
    additionally returns the list of requests it issued, in order.
  - Machine strings are `List Char`; JSON bodies are built exactly the way
    `serde_json::to_string` plus the source's `str::replace` post-passes
    build them.  Rust's `str::replace` (all non-overlapping occurrences,
    left to right) is `replaceAll` below.
  - A Rust panic (an `unwrap()` of `None`, as present in the source) is the
    `Outcome.panic` result; errors are `Outcome.err`.
  - `Location` header values are modelled as strings (the source would
    panic on a non-UTF-8 header; no claim exercises that path).
-/

namespace Tinify

/-- Character list of a string literal (JSON text is handled at `List Char`
granularity because the source post-processes serialized JSON with
`str::replace`). -/
def jsonChars (s : String) : List Char := s.toList

/-- Fuel-driven decimal printer (structural recursion keeps kernel
evaluation of concrete digits cheap; any fuel of at least the digit count
is exact). -/
def natCharsAux : Nat → Nat → List Char
  | 0, _ => []
  | fuel + 1, n =>
      if n < 10 then [Nat.digitChar n]
      else natCharsAux fuel (n / 10) ++ [Nat.digitChar (n % 10)]

/-- Decimal digit characters of a natural number, most significant first;
the digits `serde_json` emits for a `u32` field value (`n + 1` fuel always
exceeds the digit count). -/
def natChars (n : Nat) : List Char := natCharsAux (n + 1) n

/-- JSON string escaping as performed by `serde_json` on one character. -/
def jsonEscapeChar (c : Char) : List Char :=
  if c = '"' then ['\\', '"']
  else if c = '\\' then ['\\', '\\']
  else if c = '\x08' then ['\\', 'b']
  else if c = '\x0c' then ['\\', 'f']
  else if c = '\n' then ['\\', 'n']
  else if c = '\r' then ['\\', 'r']
  else if c = '\t' then ['\\', 't']
  else if c.toNat < 32 then
    ['\\', 'u', '0', '0', Nat.digitChar (c.toNat / 16), Nat.digitChar (c.toNat % 16)]
  else [c]

/-- JSON string escaping over a whole character list. -/
def jsonEscape (cs : List Char) : List Char := (cs.map jsonEscapeChar).flatten

/-- A JSON string literal: opening quote, escaped content, closing quote. -/
def jsonStringLit (cs : List Char) : List Char :=
  '"' :: jsonEscape cs ++ ['"']

/-- `serde_json::to_string` of a `Vec<String>`: a JSON array of string
literals. -/
def serializeStringVec (l : List (List Char)) : List Char :=
  '[' :: (List.intercalate [','] (l.map jsonStringLit)) ++ [']']

/-- Does `pat` occur as a prefix of `s`?  The matching step of Rust's
`str::replace`. -/
def patAt : List Char → List Char → Bool
  | [], _ => true
  | _ :: _, [] => false
  | p :: ps, c :: cs => p == c && patAt ps cs

/-- Worker for `replaceAll`: `skip` counts characters still to drop after a
match was consumed. -/
def replaceGo (pat rep : List Char) : Nat → List Char → List Char
  | _, [] => []
  | Nat.succ k, _ :: cs => replaceGo pat rep k cs
  | 0, c :: cs =>
      if patAt pat (c :: cs) then
        rep ++ replaceGo pat rep (pat.length - 1) cs
      else
        c :: replaceGo pat rep 0 cs

/-- Rust's `str::replace pat rep`: replace every non-overlapping occurrence
of `pat`, scanning left to right.  (All patterns the source uses are
non-empty.) -/
def replaceAll (pat rep s : List Char) : List Char := replaceGo pat rep 0 s

/-- Does `pat` occur as a contiguous substring of `s`? -/
def occursIn (pat : List Char) : List Char → Bool
  | [] => patAt pat []
  | c :: cs => patAt pat (c :: cs) || occursIn pat cs

/-! ## HTTP model -/

/-- The two request methods the source issues (`reqwest::Method::POST` /
`GET`; the source's `_ => unreachable!()` arm covers no reachable case). -/
inductive HttpMethod where
  | post
  | get
deriving DecidableEq

/-- A request body: none (GET), raw image bytes (upload POST), or a JSON
text body (operation POST). -/
inductive ReqBody where
  | noBody
  | binary (bs : List Nat)
  | jsonBody (cs : List Char)
deriving DecidableEq

/-- One HTTP request as issued by the library. -/
structure HttpRequest where
  method : HttpMethod
  url : String
  body : ReqBody
deriving DecidableEq

/-- One HTTP response: numeric status, optional `Location` header value,
body bytes. -/
structure HttpResponse where
  status : Nat
  location : Option String
  body : List Nat
deriving DecidableEq

/-- The network oracle: the response the remote service gives to a request. -/
def Net : Type := HttpRequest → HttpResponse

/-- A file system snapshot: path to content bytes. -/
def FS : Type := String → Option (List Nat)

/-- The error enum as used at the use sites of `src/src/source.rs`
(`TinifyError::ClientError`, `ServerError`, `ReadError`, `WriteError`,
plus the transport conversion `From<reqwest::Error>`). -/
inductive TinifyError where
  | clientError
  | serverError
  | readError
  | writeError
  | reqwestError
deriving DecidableEq

/-- Result of a call: a value, a typed error, or a Rust panic (an
`unwrap()` of `None`). -/
inductive Outcome (α : Type) where
  | ok (a : α)
  | err (e : TinifyError)
  | panic
deriving DecidableEq

/-- `const API_ENDPOINT: &str = "https://api.tinify.com"` in
`src/src/source.rs`. -/
def API_ENDPOINT : String := "https://api.tinify.com"

/-! ## Operation descriptors -/

/-- `resize::Method` of `src/src/resize.rs`. -/
inductive ResizeMethod where
  | scale
  | fit
  | cover
  | thumb
deriving DecidableEq

/-- The serde `rename` string of each resize method. -/
def ResizeMethod.chars : ResizeMethod → List Char
  | .scale => jsonChars "scale"
  | .fit => jsonChars "fit"
  | .cover => jsonChars "cover"
  | .thumb => jsonChars "thumb"

/-- `resize::Resize` of `src/src/resize.rs`: method plus optional `u32`
width and height (naturals here; the claims do not involve overflow). -/
structure Resize where
  method : ResizeMethod
  width : Option Nat
  height : Option Nat
deriving DecidableEq

/-- `serde_json::to_string` of a `Resize` value: field order
method, width, height; `width`/`height` carry
`#[serde(skip_serializing_if = "Option::is_none")]`, so an unset dimension
is omitted entirely (src/src/resize.rs lines 30-39). -/
def serializeResize (r : Resize) : List Char :=
  jsonChars "\x7b\"method\":\"" ++ r.method.chars ++ jsonChars "\""
    ++ (match r.width with
        | none => []
        | some w => jsonChars ",\"width\":" ++ natChars w)
    ++ (match r.height with
        | none => []
        | some h => jsonChars ",\"height\":" ++ natChars h)
    ++ jsonChars "\x7d"

/-- Modelled from the spec: `resize::JsonData` (referenced by
`src/src/source.rs` but absent from `src/src/resize.rs` in this snapshot)
wraps the operation as the object the service expects,
`\x7b"resize": ...\x7d` (spec section 6: the operation request body is
`\x7b"resize"?: ..., "convert"?: ..., "transform"?: ...\x7d`). -/
def serializeResizeJsonData (r : Resize) : List Char :=
  jsonChars "\x7b\"resize\":" ++ serializeResize r ++ jsonChars "\x7d"

/-- The JSON body `Source::resize` sends: serialize, then conditionally
strip a null dimension exactly as the match over
`((width.is_some, height.is_none), (height.is_some, width.is_none))`
in `src/src/source.rs` lines 171-185 does. -/
def resizeBody (r : Resize) : List Char :=
  let json_string := serializeResizeJsonData r
  if r.width.isSome && r.height.isNone then
    replaceAll (jsonChars ",\"height\":null") [] json_string
  else if r.height.isSome && r.width.isNone then
    replaceAll (jsonChars ",\"width\":null") [] json_string
  else json_string

/-- The `count` vector of `Source::convert`: the set type slots, in order,
as strings (`types.iter().filter_map(...)`). -/
def convertCount
    (convert_type : Option (List Char) × Option (List Char) × Option (List Char)) :
    List (List Char) :=
  [convert_type.1, convert_type.2.1, convert_type.2.2].filterMap id

/-- The `parse_type` string of `Source::convert`: a serialized JSON array
when two or more types are set, the bare single string when one is set, and
a panic (`count.iter().next().unwrap()`) when none is
(src/src/source.rs lines 218-226). -/
def convertParseType
    (convert_type : Option (List Char) × Option (List Char) × Option (List Char)) :
    Option (List Char) :=
  let count := convertCount convert_type
  if count.length ≥ 2 then some (serializeStringVec count)
  else
    match count.head? with
    | none => none
    | some t => some t

/-- `serde_json::to_string` of `convert::JsonData` (src/src/convert.rs):
field order convert then transform, the conversion field is named
`convert_type`, and an absent transform serializes as `null`. -/
def convertTemplate (parse_type : List Char) (transform : Option (List Char)) :
    List Char :=
  jsonChars "\x7b\"convert\":\x7b\"convert_type\":" ++ jsonStringLit parse_type
    ++ jsonChars "\x7d"
    ++ (match transform with
        | some bg =>
            jsonChars ",\"transform\":\x7b\"background\":" ++ jsonStringLit bg
              ++ jsonChars "\x7d"
        | none => jsonChars ",\"transform\":null")
    ++ jsonChars "\x7d"

/-- The JSON body `Source::convert` sends: serialize the template, then the
five `replace` passes of `src/src/source.rs` lines 237-243, in order;
`none` is the panic on an empty type selection. -/
def convertBody
    (convert_type : Option (List Char) × Option (List Char) × Option (List Char))
    (transform : Option (List Char)) : Option (List Char) :=
  (convertParseType convert_type).map fun parse_type =>
    replaceAll (jsonChars "\\\"") (jsonChars "\"")
      (replaceAll (jsonChars "]\"") (jsonChars "]")
        (replaceAll (jsonChars "\"[") (jsonChars "[")
          (replaceAll (jsonChars ",\"transform\":null") []
            (replaceAll (jsonChars "\"convert_type\"") (jsonChars "\"type\"")
              (convertTemplate parse_type transform)))))

/-! ## The Source state machine (src/src/source.rs) -/

/-- `Source`: the job object of `src/src/source.rs` (fields in declaration
order: url, key, buffer). -/
structure Source where
  url : Option String
  key : Option String
  buffer : Option (List Nat)
deriving DecidableEq

/-- `Source::request`: POSTs go to `API_ENDPOINT ++ url` with the byte
buffer (`buffer.unwrap()` panics when absent), GETs go to the raw `url`;
then statuses 401 and 415 map to a client error and 503 to a server error,
anything else passes through (src/src/source.rs lines 46-90). -/
def Source.request (s : Source) (net : Net) (method : HttpMethod)
    (url : String) (buffer : Option (List Nat)) :
    Outcome HttpResponse × List HttpRequest :=
  match method with
  | .post =>
      match buffer with
      | none => (Outcome.panic, [])
      | some bs =>
          let req : HttpRequest := ⟨.post, API_ENDPOINT ++ url, .binary bs⟩
          let response := net req
          if response.status = 401 then (.err .clientError, [req])
          else if response.status = 415 then (.err .clientError, [req])
          else if response.status = 503 then (.err .serverError, [req])
          else (.ok response, [req])
  | .get =>
      let req : HttpRequest := ⟨.get, url, .noBody⟩
      let response := net req
      if response.status = 401 then (.err .clientError, [req])
      else if response.status = 415 then (.err .clientError, [req])
      else if response.status = 503 then (.err .serverError, [req])
      else (.ok response, [req])

/-- `Source::get_source_from_response` (src/src/source.rs lines 286-311):
with a `Location` header, GET that URL through `request` and store its body
as the buffer and the location as the url; without one, the response body
becomes the buffer and the url is cleared. -/
def Source.get_source_from_response (s : Source) (net : Net)
    (response : HttpResponse) : Outcome Source × List HttpRequest :=
  match response.location with
  | some location =>
      let url := location
      let (r, t) := s.request net .get url none
      match r with
      | .ok resp2 => (.ok ⟨some url, s.key, some resp2.body⟩, t)
      | .err e => (.err e, t)
      | .panic => (.panic, t)
  | none => (.ok ⟨none, s.key, some response.body⟩, [])

/-- `Source::from_buffer`: one POST of the bytes to `/shrink`, then
`get_source_from_response` (src/src/source.rs lines 108-116). -/
def Source.from_buffer (s : Source) (net : Net) (buffer : List Nat) :
    Outcome Source × List HttpRequest :=
  let (r, t) := s.request net .post "/shrink" (some buffer)
  match r with
  | .ok response =>
      let (r2, t2) := s.get_source_from_response net response
      (r2, t ++ t2)
  | .err e => (.err e, t)
  | .panic => (.panic, t)

/-- `Source::from_file`: read the file (an unreadable path is a read
error), then `from_buffer` (src/src/source.rs lines 92-106). -/
def Source.from_file (s : Source) (net : Net) (fs : FS) (path : String) :
    Outcome Source × List HttpRequest :=
  match fs path with
  | none => (.err .readError, [])
  | some buffer => s.from_buffer net buffer

/-- `Source::from_url`: GET the caller's URL through `request`, then POST
the fetched bytes to `/shrink`, then `get_source_from_response`
(src/src/source.rs lines 118-131). -/
def Source.from_url (s : Source) (net : Net) (url : String) :
    Outcome Source × List HttpRequest :=
  let (r, t) := s.request net .get url none
  match r with
  | .ok resp =>
      let (r2, t2) := s.request net .post "/shrink" (some resp.body)
      match r2 with
      | .ok response =>
          let (r3, t3) := s.get_source_from_response net response
          (r3, t ++ t2 ++ t3)
      | .err e => (.err e, t ++ t2)
      | .panic => (.panic, t ++ t2)
  | .err e => (.err e, t)
  | .panic => (.panic, t)

/-- `Source::resize` (src/src/source.rs lines 167-203): build the JSON
body, POST it immediately to `self.url.as_ref().unwrap()` (a panic when
the url is `None`), map a 400 response to a client error, and otherwise
run `get_source_from_response`. -/
def Source.resize (s : Source) (net : Net) (r : Resize) :
    Outcome Source × List HttpRequest :=
  let json_string := resizeBody r
  match s.url with
  | none => (.panic, [])
  | some u =>
      let req : HttpRequest := ⟨.post, u, .jsonBody json_string⟩
      let response := net req
      if response.status = 400 then (.err .clientError, [req])
      else
        let (r2, t2) := s.get_source_from_response net response
        (r2, req :: t2)

/-- `Source::convert` (src/src/source.rs lines 205-262): build the JSON
body (a panic on an empty type selection), POST it immediately to
`self.url.as_ref().unwrap()` (a panic when the url is `None`), map a 400
response to a client error, and otherwise run `get_source_from_response`. -/
def Source.convert (s : Source) (net : Net)
    (convert_type : Option (List Char) × Option (List Char) × Option (List Char))
    (transform : Option (List Char)) : Outcome Source × List HttpRequest :=
  match convertBody convert_type transform with
  | none => (.panic, [])
  | some json_string =>
      match s.url with
      | none => (.panic, [])
      | some u =>
          let req : HttpRequest := ⟨.post, u, .jsonBody json_string⟩
          let response := net req
          if response.status = 400 then (.err .clientError, [req])
          else
            let (r2, t2) := s.get_source_from_response net response
            (r2, req :: t2)

/-- `Source::to_file` (src/src/source.rs lines 264-279): create-truncate
the destination, write the whole buffer, flush.  `buffer.unwrap()` panics
when the buffer is unset (the created file is then left empty). -/
def Source.to_file (s : Source) (fs : FS) (path : String) :
    Outcome Unit × FS :=
  match s.buffer with
  | none => (.panic, fun p => if p = path then some [] else fs p)
  | some b => (.ok (), fun p => if p = path then some b else fs p)

/-- `Source::to_buffer` (src/src/source.rs lines 281-284): a copy of the
buffer; `buffer.unwrap()` panics when it is unset. -/
def Source.to_buffer (s : Source) : Outcome (List Nat) :=
  match s.buffer with
  | none => Outcome.panic
  | some b => Outcome.ok b

/-- The `Client` of `src/src/client.rs`: one API key. -/
structure Client where
  key : String

/-- `Client::get_source`: `Source::new(None, Some(key))`. -/
def Client.get_source (c : Client) : Source := ⟨none, some c.key, none⟩

/-- `Client::from_buffer`. -/
def Client.from_buffer (c : Client) (net : Net) (buffer : List Nat) :
    Outcome Source × List HttpRequest :=
  c.get_source.from_buffer net buffer

/-- `Client::from_file`. -/
def Client.from_file (c : Client) (net : Net) (fs : FS) (path : String) :
    Outcome Source × List HttpRequest :=
  c.get_source.from_file net fs path

/-- `Client::from_url`. -/
def Client.from_url (c : Client) (net : Net) (url : String) :
    Outcome Source × List HttpRequest :=
  c.get_source.from_url net url

/-! ## Concrete fixtures for closed statements -/

/-- A result URL as the service returns in a `Location` header. -/
def outputUrl : String := "https://api.tinify.com/output/abc123"

/-- A `Source` in the state after a successful upload whose response
carried a `Location` header: url and buffer populated. -/
def srcReady : Source := ⟨some outputUrl, some "key", some [1, 2]⟩

/-- An oracle answering every request with `200 OK`, no `Location`, body
`[5]`. -/
def netOk : Net := fun _ => ⟨200, none, [5]⟩

/-- An oracle answering every request with `503 Service Unavailable`, no
`Location`, body `[6]`. -/
def net503 : Net := fun _ => ⟨503, none, [6]⟩

/-- An oracle answering every request with `400 Bad Request`. -/
def net400 : Net := fun _ => ⟨400, none, []⟩

/-- An oracle answering POSTs with `201 Created` and no `Location` header
(body `[3, 4]`), and GETs with `200 OK` (body `[9]`). -/
def net201NoLocation : Net := fun r =>
  match r.method with
  | .post => ⟨201, none, [3, 4]⟩
  | .get => ⟨200, none, [9]⟩

/-- An empty file system. -/
def emptyFS : FS := fun _ => none

/-! ## Helper lemmas about the string machinery -/

/-- If the pattern matches at the head of `s`, every pattern character
occurs in `s`. -/
theorem mem_of_patAt {pat s : List Char} (h : patAt pat s = true) :
    ∀ a ∈ pat, a ∈ s := by
  induction pat generalizing s with
  | nil => intro a ha; cases ha
  | cons p ps ih =>
      cases s with
      | nil => simp [patAt] at h
      | cons c cs =>
          simp only [patAt, Bool.and_eq_true, beq_iff_eq] at h
          intro a ha
          rcases List.mem_cons.mp ha with rfl | ha
          · exact h.1 ▸ List.mem_cons_self _ _
          · exact List.mem_cons_of_mem _ (ih h.2 a ha)

/-- A replacement pass leaves a string untouched when some pattern
character never occurs in it. -/
theorem replaceAll_eq_self {pat s : List Char} (rep : List Char) (a : Char)
    (ha : a ∈ pat) (hs : a ∉ s) : replaceAll pat rep s = s := by
  unfold replaceAll
  induction s with
  | nil => rfl
  | cons c cs ih =>
      unfold replaceGo
      have hmatch : patAt pat (c :: cs) = false := by
        by_contra hfalse
        exact hs (mem_of_patAt (Bool.of_not_eq_false hfalse) a ha)
      rw [hmatch]
      simp only [Bool.false_eq_true, if_false]
      rw [ih (fun h => hs (List.mem_cons_of_mem _ h))]

/-- A pattern with a character absent from `s` does not occur in `s`. -/
theorem occursIn_eq_false {pat s : List Char} (a : Char)
    (ha : a ∈ pat) (hs : a ∉ s) : occursIn pat s = false := by
  induction s with
  | nil =>
      cases pat with
      | nil => cases ha
      | cons p ps => rfl
  | cons c cs ih =>
      unfold occursIn
      have hmatch : patAt pat (c :: cs) = false := by
        by_contra hfalse
        exact hs (mem_of_patAt (Bool.of_not_eq_false hfalse) a ha)
      rw [hmatch, ih (fun h => hs (List.mem_cons_of_mem _ h))]
      rfl

/-- Every digit character emitted by one step of `Nat.digitChar` below 10
is a decimal digit. -/
theorem digitChar_mem_digits (m : Nat) (hm : m < 10) :
    Nat.digitChar m ∈ jsonChars "0123456789" := by
  interval_cases m <;> decide

/-- Every character of the fuel-driven decimal print is a digit. -/
theorem natCharsAux_mem_digits (fuel : Nat) :
    ∀ n, ∀ c ∈ natCharsAux fuel n, c ∈ jsonChars "0123456789" := by
  induction fuel with
  | zero => intro n c hc; cases hc
  | succ fuel ih =>
      intro n c hc
      by_cases h : n < 10
      · simp only [natCharsAux, if_pos h] at hc
        rcases List.mem_singleton.mp hc with rfl
        exact digitChar_mem_digits n h
      · simp only [natCharsAux, if_neg h] at hc
        rcases List.mem_append.mp hc with hc | hc
        · exact ih (n / 10) c hc
        · rcases List.mem_singleton.mp hc with rfl
          exact digitChar_mem_digits (n % 10) (Nat.mod_lt _ (by omega))

/-- Every character of the decimal print of a natural number is a digit. -/
theorem natChars_mem_digits (n : Nat) :
    ∀ c ∈ natChars n, c ∈ jsonChars "0123456789" :=
  natCharsAux_mem_digits (n + 1) n

/-- A character absent from both fixed flanks and from the digit set does
not occur in a serialized fragment that sandwiches a number print. -/
theorem not_mem_digit_sandwich {c : Char} {A B : List Char} (w : Nat)
    (hA : c ∉ A) (hB : c ∉ B) (hd : c ∉ jsonChars "0123456789") :
    c ∉ A ++ (natChars w ++ B) := by
  intro hmem
  rcases List.mem_append.mp hmem with h1 | h2
  · exact hA h1
  · rcases List.mem_append.mp h2 with h2a | h2b
    · exact hd (natChars_mem_digits w c h2a)
    · exact hB h2b

/-- Big-step characterization of `get_source_from_response` directly in
terms of the oracle: with a `Location` header the single follow-up GET goes
to exactly the location string, its body becomes the buffer and the
location the url (after the shared status mapping); without one, the
response body becomes the buffer and the url is cleared, with no request
issued. -/
theorem get_source_from_response_eq (s : Source) (net : Net)
    (resp : HttpResponse) :
    s.get_source_from_response net resp =
      match resp.location with
      | some loc =>
          ((if (net ⟨.get, loc, .noBody⟩).status = 401
              ∨ (net ⟨.get, loc, .noBody⟩).status = 415 then
              Outcome.err TinifyError.clientError
            else if (net ⟨.get, loc, .noBody⟩).status = 503 then
              Outcome.err TinifyError.serverError
            else
              Outcome.ok ⟨some loc, s.key, some (net ⟨.get, loc, .noBody⟩).body⟩),
           [⟨.get, loc, .noBody⟩])
      | none => (Outcome.ok ⟨none, s.key, some resp.body⟩, []) := by
  cases hl : resp.location with
  | none => simp [Source.get_source_from_response, hl]
  | some loc =>
      simp only [Source.get_source_from_response, Source.request, hl]
      by_cases h1 : (net ⟨.get, loc, .noBody⟩).status = 401
      · simp [h1]
      · by_cases h2 : (net ⟨.get, loc, .noBody⟩).status = 415
        · simp [h1, h2]
        · by_cases h3 : (net ⟨.get, loc, .noBody⟩).status = 503
          · simp [h1, h2, h3]
          · simp [h1, h2, h3]

/-! ## Domains for the convert claim -/

/-- The image types published by `convert::Type` in `src/src/convert.rs`:
PNG, JPEG, WEBP and the wildcard. -/
inductive MimeType where
  | png
  | jpeg
  | webp
  | wildcard
deriving DecidableEq, Fintype

/-- The constant string of each `convert::Type`. -/
def MimeType.chars : MimeType → List Char
  | .png => jsonChars "image/png"
  | .jpeg => jsonChars "image/jpeg"
  | .webp => jsonChars "image/webp"
  | .wildcard => jsonChars "*/*"

/-- Representative `convert::Color` background values from the type's
documentation (a named color and a hex value). -/
inductive ColorVal where
  | white
  | hexOrange
deriving DecidableEq, Fintype

/-- The string of each representative background color. -/
def ColorVal.chars : ColorVal → List Char
  | .white => jsonChars "white"
  | .hexOrange => jsonChars "#FF5733"

/-- The list of set type slots, in slot order, as strings. -/
def pickTypes (a b c : Option MimeType) : List (List Char) :=
  [a, b, c].filterMap (fun o => o.map MimeType.chars)

/-- Modelled from the spec (the expected wire shape, for comparison with
the body the code builds): the conversion field is named `type`; exactly
one selected type serializes as a bare JSON string, two or more as a JSON
array of strings; a background color adds a `transform` object. -/
def specConvertJson (types : List (List Char)) (tr : Option (List Char)) :
    List Char :=
  jsonChars "\x7b\"convert\":\x7b\"type\":"
    ++ (match types with
        | [t] => '"' :: t ++ ['"']
        | l => '[' :: (List.intercalate [','] (l.map (fun t => '"' :: t ++ ['"']))) ++ [']'])
    ++ jsonChars "\x7d"
    ++ (match tr with
        | none => []
        | some bg =>
            jsonChars ",\"transform\":\x7b\"background\":\"" ++ bg
              ++ jsonChars "\"\x7d")
    ++ jsonChars "\x7d"

/-! ## Claims -/

/-- C1: for every response to an upload or operation request that is not
mapped to an error, a `Location` header triggers exactly one follow-up GET
to exactly that URL, whose body becomes the buffer while the location
string becomes the url; with no `Location` header the response body itself
becomes the buffer and the url is cleared.  Exactly one of the two paths is
taken (the two match arms are exhaustive and mutually exclusive). -/
theorem c1_redirect_or_direct_body (s : Source) (net : Net)
    (resp : HttpResponse) :
    s.get_source_from_response net resp =
      match resp.location with
      | some loc =>
          ((if (net ⟨.get, loc, .noBody⟩).status = 401
              ∨ (net ⟨.get, loc, .noBody⟩).status = 415 then
              Outcome.err TinifyError.clientError
            else if (net ⟨.get, loc, .noBody⟩).status = 503 then
              Outcome.err TinifyError.serverError
            else
              Outcome.ok ⟨some loc, s.key, some (net ⟨.get, loc, .noBody⟩).body⟩),
           [⟨.get, loc, .noBody⟩])
      | none => (Outcome.ok ⟨none, s.key, some resp.body⟩, []) :=
  get_source_from_response_eq s net resp

/-- C9: on a materialized `Source` (buffer populated), the bytes `to_file`
writes at the destination path, read back, are exactly the bytes
`to_buffer` returns, and no other path is touched. -/
theorem c9_to_file_matches_to_buffer (s : Source) (fs : FS) (path : String)
    (b : List Nat) (hb : s.buffer = some b) :
    (s.to_file fs path).1 = Outcome.ok ()
    ∧ ((s.to_file fs path).2) path = some b
    ∧ s.to_buffer = Outcome.ok b
    ∧ ∀ q, q ≠ path → ((s.to_file fs path).2) q = fs q := by
  refine ⟨?_, ?_, ?_, ?_⟩ <;>
    simp [Source.to_file, Source.to_buffer, hb]
  intro q hq
  simp [hq]

/-- Witness for C9 at a concrete materialized source. -/
theorem c9_to_file_matches_to_buffer_witness :
    (srcReady.to_file emptyFS "./optimized.jpg").1 = Outcome.ok ()
    ∧ ((srcReady.to_file emptyFS "./optimized.jpg").2) "./optimized.jpg"
        = some [1, 2]
    ∧ srcReady.to_buffer = Outcome.ok [1, 2] := by
  have h := c9_to_file_matches_to_buffer srcReady emptyFS "./optimized.jpg"
    [1, 2] rfl
  exact ⟨h.1, h.2.1, h.2.2.1⟩

/-- C10: with all three type slots unset, `convert` panics on the unwrap
of the empty `count` collection (before any request is issued) instead of
returning a typed error. -/
theorem c10_convert_empty_selection_panics :
    convertParseType (none, none, none) = none
    ∧ srcReady.convert netOk (none, none, none) none = (Outcome.panic, []) := by
  constructor
  · rfl
  · rfl

/-- C2 counterexample: a `503 Service Unavailable` answer to a resize
operation request is NOT mapped to a server error — the operation path
checks only for `400`, so the 503 body is stored as the result buffer and
the call succeeds.  This falsifies the claim that every response with
status 503 is mapped to a server error. -/
theorem c2_universal_status_mapping_cex :
    (srcReady.resize net503 ⟨.scale, some 400, none⟩).1
        = Outcome.ok ⟨none, some "key", some [6]⟩
    ∧ (srcReady.resize net503 ⟨.scale, some 400, none⟩).1
        ≠ Outcome.err TinifyError.serverError := by
  refine ⟨rfl, ?_⟩
  decide

/-- C2 amended: the 401/415-to-client-error and 503-to-server-error
mapping applies exactly to responses received through the shared `request`
helper (upload POSTs to `/shrink` and all GETs, including `Location`
follow-ups); a response to an operation POST (resize/convert) is checked
only for status 400, and any other status there flows into
`get_source_from_response` as a success. -/
theorem c2_status_mapping_per_path (s : Source) (net : Net) (p u : String)
    (bs : List Nat) (rz : Resize)
    (ct : Option (List Char) × Option (List Char) × Option (List Char))
    (tr : Option (List Char)) (j : List Char) (hu : s.url = some u) :
    ((s.request net .post p (some bs)).1 =
        (if (net ⟨.post, API_ENDPOINT ++ p, .binary bs⟩).status = 401
            ∨ (net ⟨.post, API_ENDPOINT ++ p, .binary bs⟩).status = 415 then
           Outcome.err TinifyError.clientError
         else if (net ⟨.post, API_ENDPOINT ++ p, .binary bs⟩).status = 503 then
           Outcome.err TinifyError.serverError
         else Outcome.ok (net ⟨.post, API_ENDPOINT ++ p, .binary bs⟩)))
    ∧ ((s.request net .get u none).1 =
        (if (net ⟨.get, u, .noBody⟩).status = 401
            ∨ (net ⟨.get, u, .noBody⟩).status = 415 then
           Outcome.err TinifyError.clientError
         else if (net ⟨.get, u, .noBody⟩).status = 503 then
           Outcome.err TinifyError.serverError
         else Outcome.ok (net ⟨.get, u, .noBody⟩)))
    ∧ ((s.resize net rz).1 =
        (if (net ⟨.post, u, .jsonBody (resizeBody rz)⟩).status = 400 then
           Outcome.err TinifyError.clientError
         else
           match (net ⟨.post, u, .jsonBody (resizeBody rz)⟩).location with
           | none =>
               Outcome.ok
                 ⟨none, s.key,
                  some (net ⟨.post, u, .jsonBody (resizeBody rz)⟩).body⟩
           | some loc =>
               if (net ⟨.get, loc, .noBody⟩).status = 401
                   ∨ (net ⟨.get, loc, .noBody⟩).status = 415 then
                 Outcome.err TinifyError.clientError
               else if (net ⟨.get, loc, .noBody⟩).status = 503 then
                 Outcome.err TinifyError.serverError
               else
                 Outcome.ok
                   ⟨some loc, s.key, some (net ⟨.get, loc, .noBody⟩).body⟩))
    ∧ (convertBody ct tr = some j →
        (s.convert net ct tr).1 =
          (if (net ⟨.post, u, .jsonBody j⟩).status = 400 then
             Outcome.err TinifyError.clientError
           else
             match (net ⟨.post, u, .jsonBody j⟩).location with
             | none =>
                 Outcome.ok
                   ⟨none, s.key, some (net ⟨.post, u, .jsonBody j⟩).body⟩
             | some loc =>
                 if (net ⟨.get, loc, .noBody⟩).status = 401
                     ∨ (net ⟨.get, loc, .noBody⟩).status = 415 then
                   Outcome.err TinifyError.clientError
                 else if (net ⟨.get, loc, .noBody⟩).status = 503 then
                   Outcome.err TinifyError.serverError
                 else
                   Outcome.ok
                     ⟨some loc, s.key,
                      some (net ⟨.get, loc, .noBody⟩).body⟩)) := by
  refine ⟨?_, ?_, ?_, ?_⟩
  · simp only [Source.request]
    by_cases h1 : (net ⟨.post, API_ENDPOINT ++ p, .binary bs⟩).status = 401
    · simp [h1]
    · by_cases h2 : (net ⟨.post, API_ENDPOINT ++ p, .binary bs⟩).status = 415
      · simp [h1, h2]
      · by_cases h3 : (net ⟨.post, API_ENDPOINT ++ p, .binary bs⟩).status = 503
        · simp [h1, h2, h3]
        · simp [h1, h2, h3]
  · simp only [Source.request]
    by_cases h1 : (net ⟨.get, u, .noBody⟩).status = 401
    · simp [h1]
    · by_cases h2 : (net ⟨.get, u, .noBody⟩).status = 415
      · simp [h1, h2]
      · by_cases h3 : (net ⟨.get, u, .noBody⟩).status = 503
        · simp [h1, h2, h3]
        · simp [h1, h2, h3]
  · simp only [Source.resize, hu]
    by_cases h4 : (net ⟨.post, u, .jsonBody (resizeBody rz)⟩).status = 400
    · simp [h4]
    · simp only [if_neg h4]
      rw [get_source_from_response_eq]
      cases hl : (net ⟨.post, u, .jsonBody (resizeBody rz)⟩).location with
      | none => simp [hl]
      | some loc => simp [hl]
  · intro hj
    simp only [Source.convert, hj, hu]
    by_cases h4 : (net ⟨.post, u, .jsonBody j⟩).status = 400
    · simp [h4]
    · simp only [if_neg h4]
      rw [get_source_from_response_eq]
      cases hl : (net ⟨.post, u, .jsonBody j⟩).location with
      | none => simp [hl]
      | some loc => simp [hl]

/-- Witness for the amended C2 at a concrete source and oracle. -/
theorem c2_status_mapping_per_path_witness :
    (srcReady.request net503 .post "/shrink" (some [1])).1
        = Outcome.err TinifyError.serverError
    ∧ (srcReady.resize net503 ⟨.scale, some 400, none⟩).1
        = Outcome.ok ⟨none, some "key", some [6]⟩
    ∧ (srcReady.convert net503 (some (jsonChars "image/png"), none, none)
          none).1
        = Outcome.ok ⟨none, some "key", some [6]⟩ := by
  have h := c2_status_mapping_per_path srcReady net503 "/shrink" outputUrl
    [1] ⟨.scale, some 400, none⟩ (some (jsonChars "image/png"), none, none)
    none (jsonChars "\x7b\"convert\":\x7b\"type\":\"image/png\"\x7d\x7d") rfl
  refine ⟨?_, ?_, ?_⟩
  · rw [h.1]
    rfl
  · rw [h.2.2.1]
    rfl
  · rw [h.2.2.2 (by decide)]
    rfl

/-- C3 counterexample: `resize` issues a network request immediately (its
request trace is non-empty), falsifying the claim that operation calls
only mutate a local pending-operations record and touch no network (the
`Source` of the code has no operations record at all, and no `transform`
method exists). -/
theorem c3_resize_touches_network_cex :
    (srcReady.resize netOk ⟨.fit, some 400, some 200⟩).2 ≠ [] := by
  decide

/-- C3 amended: `resize` and `convert` each serialize their single
operation and POST it immediately to the stored url — the first request of
each call is that POST; `to_file` and `to_buffer` perform no operation
flush (they take no network oracle at all in this embedding, mirroring
that the code only writes or copies the buffer there). -/
theorem c3_operations_post_immediately (s : Source) (net : Net)
    (rz : Resize)
    (ct : Option (List Char) × Option (List Char) × Option (List Char))
    (tr : Option (List Char)) (u : String) (j : List Char)
    (hu : s.url = some u) :
    ((s.resize net rz).2).head?
        = some ⟨.post, u, .jsonBody (resizeBody rz)⟩
    ∧ (convertBody ct tr = some j →
        ((s.convert net ct tr).2).head?
          = some ⟨.post, u, .jsonBody j⟩) := by
  constructor
  · simp only [Source.resize, hu]
    by_cases h4 : (net ⟨.post, u, .jsonBody (resizeBody rz)⟩).status = 400
    · simp [h4]
    · simp [h4]
  · intro hj
    simp only [Source.convert, hj, hu]
    by_cases h4 : (net ⟨.post, u, .jsonBody j⟩).status = 400
    · simp [h4]
    · simp [h4]

/-- Witness for the amended C3 at a concrete ready source. -/
theorem c3_operations_post_immediately_witness :
    ((srcReady.resize netOk ⟨.fit, some 400, some 200⟩).2).head?
        = some ⟨.post, outputUrl,
                .jsonBody (resizeBody ⟨.fit, some 400, some 200⟩)⟩
    ∧ ((srcReady.convert netOk (some (jsonChars "image/png"), none, none)
          none).2).head?
        = some ⟨.post, outputUrl,
                .jsonBody (jsonChars "\x7b\"convert\":\x7b\"type\":\"image/png\"\x7d\x7d")⟩ := by
  have h := c3_operations_post_immediately srcReady netOk
    ⟨.fit, some 400, some 200⟩ (some (jsonChars "image/png"), none, none)
    none outputUrl
    (jsonChars "\x7b\"convert\":\x7b\"type\":\"image/png\"\x7d\x7d") rfl
  exact ⟨h.1, h.2 (by decide)⟩

/-- C4 counterexample: a `scale` resize with both width and height set is
not rejected locally — the call succeeds against a permissive oracle and a
request is sent upstream. -/
theorem c4_scale_both_not_rejected_cex :
    (srcReady.resize netOk ⟨.scale, some 400, some 200⟩).1
        ≠ Outcome.err TinifyError.clientError
    ∧ (srcReady.resize netOk ⟨.scale, some 400, some 200⟩).2 ≠ [] := by
  constructor
  · decide
  · decide

/-- C4 amended: a `scale` resize with both dimensions set undergoes no
local validation: both fields are serialized and the request is sent
upstream to the stored url; a client error arises only when the server
itself answers 400. -/
theorem c4_scale_both_sent_upstream (s : Source) (net : Net) (u : String)
    (w h : Nat) (hu : s.url = some u) :
    resizeBody ⟨.scale, some w, some h⟩
        = jsonChars "\x7b\"resize\":\x7b\"method\":\"scale\",\"width\":"
            ++ natChars w ++ (jsonChars ",\"height\":"
            ++ (natChars h ++ jsonChars "\x7d\x7d"))
    ∧ ((s.resize net ⟨.scale, some w, some h⟩).2).head?
        = some ⟨.post, u, .jsonBody (resizeBody ⟨.scale, some w, some h⟩)⟩
    ∧ ((net ⟨.post, u, .jsonBody (resizeBody ⟨.scale, some w, some h⟩)⟩).status
          = 400 →
        (s.resize net ⟨.scale, some w, some h⟩).1
          = Outcome.err TinifyError.clientError) := by
  refine ⟨?_, ?_, ?_⟩
  · simp [resizeBody, serializeResizeJsonData, serializeResize,
      ResizeMethod.chars, jsonChars]
  · simp only [Source.resize, hu]
    by_cases h4 : (net ⟨.post, u,
        .jsonBody (resizeBody ⟨.scale, some w, some h⟩)⟩).status = 400
    · simp [h4]
    · simp [h4]
  · intro h400
    simp [Source.resize, hu, h400]

/-- Witness for the amended C4: both dimensions go upstream and a 400
answer maps to a client error. -/
theorem c4_scale_both_sent_upstream_witness :
    (srcReady.resize net400 ⟨.scale, some 400, some 200⟩).1
        = Outcome.err TinifyError.clientError := by
  have h := c4_scale_both_sent_upstream srcReady net400 outputUrl 400 200 rfl
  exact h.2.2 rfl

/-- C5 counterexample: a `Source` produced by an upload whose `201`
response had no `Location` header (url cleared) makes the next `resize`
panic on `self.url.as_ref().unwrap()` — the operation does not return a
typed result. -/
theorem c5_resize_after_no_location_panics_cex :
    ((Source.mk none (some "key") none).from_buffer net201NoLocation [9]).1
        = Outcome.ok ⟨none, some "key", some [3, 4]⟩
    ∧ ((Source.mk none (some "key") (some [3, 4])).resize net201NoLocation
          ⟨.scale, some 400, none⟩).1 = Outcome.panic := by
  constructor
  · rfl
  · rfl

/-- C5 amended: not every reachable state gives a typed result — `resize`
and `convert` on a `Source` whose url is `None` (the state produced by a
response without a `Location` header) panic on an unwrap of `None`, and
`to_buffer`/`to_file` on an unpopulated buffer panic likewise; the no-panic
guarantee fails exactly on these unwraps. -/
theorem c5_unset_state_panics (s : Source) (net : Net) (rz : Resize)
    (ct : Option (List Char) × Option (List Char) × Option (List Char))
    (tr : Option (List Char)) (fs : FS) (path : String) :
    (s.url = none →
        (s.resize net rz).1 = Outcome.panic
        ∧ (s.convert net ct tr).1 = Outcome.panic)
    ∧ (s.buffer = none →
        s.to_buffer = Outcome.panic
        ∧ (s.to_file fs path).1 = Outcome.panic) := by
  constructor
  · intro hu
    constructor
    · simp [Source.resize, hu]
    · cases hc : convertBody ct tr with
      | none => simp [Source.convert, hc]
      | some j => simp [Source.convert, hc, hu]
  · intro hb
    constructor
    · simp [Source.to_buffer, hb]
    · simp [Source.to_file, hb]

/-- Witness for the amended C5 at the freshly created source (url and
buffer both unset). -/
theorem c5_unset_state_panics_witness :
    ((Source.mk none (some "key") none).resize netOk
        ⟨.scale, some 400, none⟩).1 = Outcome.panic
    ∧ (Source.mk none (some "key") none).to_buffer = Outcome.panic := by
  have h := c5_unset_state_panics ⟨none, some "key", none⟩ netOk
    ⟨.scale, some 400, none⟩ (none, none, none) none emptyFS "./out.jpg"
  exact ⟨(h.1 rfl).1, (h.2 rfl).1⟩

/-- The body a width-only scale resize sends: the height field is absent
(the null-stripping replace pass finds nothing to strip, because serde
already omitted the unset field). -/
theorem resizeBody_scale_width_eq (w : Nat) :
    resizeBody ⟨.scale, some w, none⟩
      = jsonChars "\x7b\"resize\":\x7b\"method\":\"scale\",\"width\":"
          ++ (natChars w ++ jsonChars "\x7d\x7d") := by
  have hser : serializeResizeJsonData ⟨.scale, some w, none⟩
      = jsonChars "\x7b\"resize\":\x7b\"method\":\"scale\",\"width\":"
          ++ (natChars w ++ jsonChars "\x7d\x7d") := by
    simp only [serializeResizeJsonData, serializeResize, ResizeMethod.chars,
      List.append_assoc, List.nil_append]
    rfl
  have hn : ('n' : Char) ∉
      jsonChars "\x7b\"resize\":\x7b\"method\":\"scale\",\"width\":"
        ++ (natChars w ++ jsonChars "\x7d\x7d") :=
    not_mem_digit_sandwich w (by decide) (by decide) (by decide)
  calc resizeBody ⟨.scale, some w, none⟩
      = replaceAll (jsonChars ",\"height\":null") []
          (serializeResizeJsonData ⟨.scale, some w, none⟩) := rfl
    _ = _ := by
          rw [hser]
          exact replaceAll_eq_self [] 'n' (by decide) hn

/-- The body a height-only scale resize sends: the width field is absent. -/
theorem resizeBody_scale_height_eq (w : Nat) :
    resizeBody ⟨.scale, none, some w⟩
      = jsonChars "\x7b\"resize\":\x7b\"method\":\"scale\",\"height\":"
          ++ (natChars w ++ jsonChars "\x7d\x7d") := by
  have hser : serializeResizeJsonData ⟨.scale, none, some w⟩
      = jsonChars "\x7b\"resize\":\x7b\"method\":\"scale\",\"height\":"
          ++ (natChars w ++ jsonChars "\x7d\x7d") := by
    simp only [serializeResizeJsonData, serializeResize, ResizeMethod.chars,
      List.append_assoc, List.nil_append]
    rfl
  have hn : ('n' : Char) ∉
      jsonChars "\x7b\"resize\":\x7b\"method\":\"scale\",\"height\":"
        ++ (natChars w ++ jsonChars "\x7d\x7d") :=
    not_mem_digit_sandwich w (by decide) (by decide) (by decide)
  calc resizeBody ⟨.scale, none, some w⟩
      = replaceAll (jsonChars ",\"width\":null") []
          (serializeResizeJsonData ⟨.scale, none, some w⟩) := rfl
    _ = _ := by
          rw [hser]
          exact replaceAll_eq_self [] 'n' (by decide) hn

/-- C7: a scale resize with exactly one dimension set serializes to a body
that omits the unset dimension field entirely — the body is exactly the
one-field object, contains no `null` token and no occurrence of the unset
field's name. -/
theorem c7_scale_omits_unset_dimension (w : Nat) :
    (resizeBody ⟨.scale, some w, none⟩
        = jsonChars "\x7b\"resize\":\x7b\"method\":\"scale\",\"width\":"
            ++ (natChars w ++ jsonChars "\x7d\x7d")
      ∧ occursIn (jsonChars "null") (resizeBody ⟨.scale, some w, none⟩) = false
      ∧ occursIn (jsonChars "\"height\"")
          (resizeBody ⟨.scale, some w, none⟩) = false)
    ∧ (resizeBody ⟨.scale, none, some w⟩
        = jsonChars "\x7b\"resize\":\x7b\"method\":\"scale\",\"height\":"
            ++ (natChars w ++ jsonChars "\x7d\x7d")
      ∧ occursIn (jsonChars "null") (resizeBody ⟨.scale, none, some w⟩) = false
      ∧ occursIn (jsonChars "\"width\"")
          (resizeBody ⟨.scale, none, some w⟩) = false) := by
  refine ⟨⟨resizeBody_scale_width_eq w, ?_, ?_⟩,
          ⟨resizeBody_scale_height_eq w, ?_, ?_⟩⟩
  · rw [resizeBody_scale_width_eq w]
    exact occursIn_eq_false 'n' (by decide)
      (not_mem_digit_sandwich w (by decide) (by decide) (by decide))
  · rw [resizeBody_scale_width_eq w]
    exact occursIn_eq_false 'g' (by decide)
      (not_mem_digit_sandwich w (by decide) (by decide) (by decide))
  · rw [resizeBody_scale_height_eq w]
    exact occursIn_eq_false 'n' (by decide)
      (not_mem_digit_sandwich w (by decide) (by decide) (by decide))
  · rw [resizeBody_scale_height_eq w]
    exact occursIn_eq_false 'w' (by decide)
      (not_mem_digit_sandwich w (by decide) (by decide) (by decide))

/-- Enumeration of every optional type-slot value. -/
def optMimes : List (Option MimeType) :=
  [none, some .png, some .jpeg, some .webp, some .wildcard]

/-- Enumeration of the optional background values. -/
def optColors : List (Option ColorVal) := [none, some .white, some .hexOrange]

/-- Boolean check of the convert wire shape for one fixed first type slot
and background: every selection of the remaining two slots with at least
one type set overall serializes to the expected shape. -/
def shapeCheckAt (a : Option MimeType) (tr : Option ColorVal) : Bool :=
  optMimes.all fun b => optMimes.all fun c =>
    (pickTypes a b c == ([] : List (List Char)))
    || (convertBody (a.map MimeType.chars, b.map MimeType.chars,
          c.map MimeType.chars) (tr.map ColorVal.chars)
        == some (specConvertJson (pickTypes a b c) (tr.map ColorVal.chars)))

section
set_option maxRecDepth 40000
set_option maxHeartbeats 1600000

/-- Shape check, first slot empty, no background. -/
theorem shapeCheckAt_none_none : shapeCheckAt none none = true := by rfl

/-- Shape check, first slot empty, named background. -/
theorem shapeCheckAt_none_white : shapeCheckAt none (some .white) = true := by
  rfl

/-- Shape check, first slot empty, hex background. -/
theorem shapeCheckAt_none_hex : shapeCheckAt none (some .hexOrange) = true := by
  rfl

/-- Shape check, first slot PNG, no background. -/
theorem shapeCheckAt_png_none : shapeCheckAt (some .png) none = true := by rfl

/-- Shape check, first slot PNG, named background. -/
theorem shapeCheckAt_png_white : shapeCheckAt (some .png) (some .white) = true := by
  rfl

/-- Shape check, first slot PNG, hex background. -/
theorem shapeCheckAt_png_hex : shapeCheckAt (some .png) (some .hexOrange) = true := by
  rfl

/-- Shape check, first slot JPEG, no background. -/
theorem shapeCheckAt_jpeg_none : shapeCheckAt (some .jpeg) none = true := by rfl

/-- Shape check, first slot JPEG, named background. -/
theorem shapeCheckAt_jpeg_white : shapeCheckAt (some .jpeg) (some .white) = true := by
  rfl

/-- Shape check, first slot JPEG, hex background. -/
theorem shapeCheckAt_jpeg_hex : shapeCheckAt (some .jpeg) (some .hexOrange) = true := by
  rfl

/-- Shape check, first slot WebP, no background. -/
theorem shapeCheckAt_webp_none : shapeCheckAt (some .webp) none = true := by rfl

/-- Shape check, first slot WebP, named background. -/
theorem shapeCheckAt_webp_white : shapeCheckAt (some .webp) (some .white) = true := by
  rfl

/-- Shape check, first slot WebP, hex background. -/
theorem shapeCheckAt_webp_hex : shapeCheckAt (some .webp) (some .hexOrange) = true := by
  rfl

/-- Shape check, first slot wildcard, no background. -/
theorem shapeCheckAt_wildcard_none : shapeCheckAt (some .wildcard) none = true := by
  rfl

/-- Shape check, first slot wildcard, named background. -/
theorem shapeCheckAt_wildcard_white : shapeCheckAt (some .wildcard) (some .white) = true := by
  rfl

/-- Shape check, first slot wildcard, hex background. -/
theorem shapeCheckAt_wildcard_hex : shapeCheckAt (some .wildcard) (some .hexOrange) = true := by
  rfl

end

/-- The shape check holds for every first slot and background. -/
theorem shapeCheckAt_true (a : Option MimeType) (tr : Option ColorVal) :
    shapeCheckAt a tr = true := by
  cases a with
  | none =>
      cases tr with
      | none => exact shapeCheckAt_none_none
      | some ctr =>
          cases ctr with
          | white => exact shapeCheckAt_none_white
          | hexOrange => exact shapeCheckAt_none_hex
  | some m =>
      cases m with
      | png =>
          cases tr with
          | none => exact shapeCheckAt_png_none
          | some ctr =>
              cases ctr with
              | white => exact shapeCheckAt_png_white
              | hexOrange => exact shapeCheckAt_png_hex
      | jpeg =>
          cases tr with
          | none => exact shapeCheckAt_jpeg_none
          | some ctr =>
              cases ctr with
              | white => exact shapeCheckAt_jpeg_white
              | hexOrange => exact shapeCheckAt_jpeg_hex
      | webp =>
          cases tr with
          | none => exact shapeCheckAt_webp_none
          | some ctr =>
              cases ctr with
              | white => exact shapeCheckAt_webp_white
              | hexOrange => exact shapeCheckAt_webp_hex
      | wildcard =>
          cases tr with
          | none => exact shapeCheckAt_wildcard_none
          | some ctr =>
              cases ctr with
              | white => exact shapeCheckAt_wildcard_white
              | hexOrange => exact shapeCheckAt_wildcard_hex

/-- The type-slot enumeration is complete. -/
theorem mem_optMimes (a : Option MimeType) : a ∈ optMimes := by
  cases a with
  | none => decide
  | some m => cases m <;> decide

/-- The background enumeration is complete. -/
theorem mem_optColors (tr : Option ColorVal) : tr ∈ optColors := by
  cases tr with
  | none => decide
  | some c => cases c <;> decide

/-- C6: for every convert call over the API's published image types (and
an optional background color drawn from the documented color forms), the
serialized operation body names the conversion field `type` — the
`convert_type` of the serde struct never survives the rename pass — and
picks its shape by cardinality alone: exactly one selected type yields a
bare JSON string, two or more yield a JSON array of strings.  The body the
code builds equals the spec's expected wire shape. -/
theorem c6_convert_type_field_and_shape :
    ∀ (a b c : Option MimeType) (tr : Option ColorVal),
      pickTypes a b c ≠ [] →
      convertBody
          (a.map MimeType.chars, b.map MimeType.chars, c.map MimeType.chars)
          (tr.map ColorVal.chars)
        = some (specConvertJson (pickTypes a b c) (tr.map ColorVal.chars)) := by
  intro a b c tr hne
  have h := shapeCheckAt_true a tr
  unfold shapeCheckAt at h
  simp only [List.all_eq_true] at h
  have h := h b (mem_optMimes b) c (mem_optMimes c)
  rcases Bool.or_eq_true_iff.mp h with h | h
  · exact absurd (eq_of_beq h) hne
  · exact eq_of_beq h

/-- Witness for C6: two selected types serialize as a JSON array under the
field named `type`. -/
theorem c6_convert_type_field_and_shape_witness :
    convertBody
        (some (jsonChars "image/png"), some (jsonChars "image/webp"), none)
        none
      = some (specConvertJson [jsonChars "image/png", jsonChars "image/webp"]
          none) := by
  have h := c6_convert_type_field_and_shape (some .png) (some .webp) none
    none (by decide)
  exact h

/-- C8: an upload (`from_buffer`, `from_file`, or `from_url`) whose
`/shrink` POST is answered `401 Unauthorized` returns a client error
without any follow-up request — no `Source` (and hence no populated
buffer) is produced. -/
theorem c8_upload_401_client_error (s : Source) (net : Net) (bs : List Nat)
    (fs : FS) (path url0 : String) :
    ((net ⟨.post, "https://api.tinify.com/shrink", .binary bs⟩).status = 401 →
        s.from_buffer net bs
          = (Outcome.err TinifyError.clientError,
             [⟨.post, "https://api.tinify.com/shrink", .binary bs⟩]))
    ∧ (fs path = some bs →
        (net ⟨.post, "https://api.tinify.com/shrink", .binary bs⟩).status
            = 401 →
        s.from_file net fs path
          = (Outcome.err TinifyError.clientError,
             [⟨.post, "https://api.tinify.com/shrink", .binary bs⟩]))
    ∧ ((net ⟨.get, url0, .noBody⟩).status = 200 →
        (net ⟨.post, "https://api.tinify.com/shrink",
              .binary (net ⟨.get, url0, .noBody⟩).body⟩).status = 401 →
        s.from_url net url0
          = (Outcome.err TinifyError.clientError,
             [⟨.get, url0, .noBody⟩,
              ⟨.post, "https://api.tinify.com/shrink",
               .binary (net ⟨.get, url0, .noBody⟩).body⟩])) := by
  have hurl : API_ENDPOINT ++ "/shrink" = "https://api.tinify.com/shrink" :=
    rfl
  refine ⟨?_, ?_, ?_⟩
  · intro h401
    simp [Source.from_buffer, Source.request, hurl, h401]
  · intro hfs h401
    simp [Source.from_file, hfs, Source.from_buffer, Source.request, hurl,
      h401]
  · intro h200 h401
    simp [Source.from_url, Source.request, hurl, h200, h401]

/-- Witness for C8 at a concrete oracle that authorizes nothing. -/
theorem c8_upload_401_client_error_witness :
    (Source.mk none (some "bad") none).from_buffer
        (fun r => match r.method with
          | .post => ⟨401, none, []⟩
          | .get => ⟨200, none, [7]⟩) [7]
      = (Outcome.err TinifyError.clientError,
         [⟨.post, "https://api.tinify.com/shrink", .binary [7]⟩])
    ∧ (Source.mk none (some "bad") none).from_url
        (fun r => match r.method with
          | .post => ⟨401, none, []⟩
          | .get => ⟨200, none, [7]⟩) "https://tinypng.com/panda.png"
      = (Outcome.err TinifyError.clientError,
         [⟨.get, "https://tinypng.com/panda.png", .noBody⟩,
          ⟨.post, "https://api.tinify.com/shrink", .binary [7]⟩]) := by
  have h := c8_upload_401_client_error (Source.mk none (some "bad") none)
    (fun r => match r.method with
      | .post => ⟨401, none, []⟩
      | .get => ⟨200, none, [7]⟩) [7] emptyFS "./img.png"
    "https://tinypng.com/panda.png"
  exact ⟨h.1 rfl, h.2.2 rfl rfl⟩

end Tinify
